import Mathlib

/-!
Verification of the RootOps intelligence engine
(`src/services/intelligence_engine.py`) against its natural-language
specification.  The Python decision logic is shallowly embedded below:
pure methods become Lean functions on `ℚ` / `ℕ` / `String` / `List`,
the SQLAlchemy-backed stores become explicit lists of records inside an
`EngineState`, and fallible paths return `Except`.
-/

namespace RootOps

/-- Record in the `pattern_memory` table (`PatternMemory` in
`src/models/db_models.py`); timestamps are modelled as natural numbers. -/
structure PatternMemory where
  pattern_type : String
  occurrence_count : ℕ
  confidence : ℚ
  typical_impact : String
  first_seen : ℕ
  last_seen : ℕ
  deriving Repr, DecidableEq

/-- Record in the `deployment_events` table (`DeploymentEvent`). -/
structure DeploymentEvent where
  deployment_id : String
  commit_sha : String
  repository : String
  deployed_at : ℕ
  predicted_risk : ℚ
  predicted_impact : String
  recommended_action : String
  baseline_error_rate : ℚ
  resulted_in_incident : Bool
  incident_id : Option String
  deriving Repr, DecidableEq

/-- Record in the `incident_memory` table (`IncidentMemory`). -/
structure IncidentMemory where
  incident_id : String
  severity : String
  description : String
  root_cause_commit : Option String
  occurred_at : ℕ
  time_to_detect_minutes : Option ℕ
  patterns : List String
  deriving Repr, DecidableEq

/-- `_calculate_confidence`: a step function of the total memory count. -/
def calculate_confidence (total_memories : ℕ) : ℚ :=
  if total_memories < 10 then 3/10
  else if total_memories < 50 then 3/5
  else if total_memories < 200 then 4/5
  else 19/20

/-- `_estimate_impact`: impact category from the commit blast radius. -/
def estimate_impact (blast_radius : ℕ) : String :=
  if blast_radius ≥ 5 then "CRITICAL"
  else if blast_radius ≥ 3 then "HIGH"
  else if blast_radius ≥ 2 then "MEDIUM"
  else "LOW"

/-- `_decide_action`: categorical action from the fused probability. -/
def decide_action (prob : ℚ) : String :=
  if prob ≥ 4/5 then "BLOCK"
  else if prob ≥ 3/5 then "STAGED_ROLLOUT"
  else if prob ≥ 2/5 then "PROCEED_WITH_CAUTION"
  else "PROCEED"

/-- `_assess_deployment_health`: four-state health assessment from the
error-rate increase, degradation percent, newly observed error-pattern
tags and anomalies (only the length of the anomaly list matters). -/
def assess_deployment_health (error_rate_increase degradation_percent : ℚ)
    (new_patterns : List String) (anomalies : List String) : String :=
  if error_rate_increase > 1/5 ∨ new_patterns.length ≥ 3 then "CRITICAL"
  else if error_rate_increase > 1/10 ∨ degradation_percent > 100 then "UNHEALTHY"
  else if error_rate_increase > 1/20 ∨ new_patterns.length > 0 ∨ anomalies.length > 0 then
    "DEGRADED"
  else "HEALTHY"

/-- Result dict of `_should_rollback`. -/
structure RollbackRecommendation where
  recommended : Bool
  urgency : String
  reason : String
  action : String
  deriving Repr, DecidableEq

/-- `_should_rollback`: rollback directive from the health status and the
deployment's original predicted risk (`duration_minutes` is accepted and
ignored, as in the source). -/
def should_rollback (health_status : String) (deployment : DeploymentEvent)
    (_duration_minutes : ℕ) : RollbackRecommendation :=
  if health_status = "CRITICAL" then
    ⟨true, "IMMEDIATE", "Critical errors detected - immediate rollback required",
      "Execute rollback now"⟩
  else if health_status = "UNHEALTHY" then
    if deployment.predicted_risk ≥ 7/10 then
      ⟨true, "HIGH", "High-risk deployment showing degradation",
        "Rollback within 15 minutes if not improving"⟩
    else
      ⟨true, "MEDIUM", "Deployment health degraded",
        "Monitor closely, prepare rollback"⟩
  else if health_status = "DEGRADED" then
    ⟨false, "LOW", "Minor issues detected", "Continue monitoring, investigate errors"⟩
  else
    ⟨false, "NONE", "Deployment healthy", "Continue normal monitoring"⟩

/-! ## Risk fusion (`_predict_outcome`) -/

/-- Sum of the five rule-based risk factors on top of the base risk,
capped at `1.0` — the `rule_prob` expression of `_predict_outcome`. -/
def fuse_factors (base system_factor historical_factor file_risk_factor
    author_factor time_factor : ℚ) : ℚ :=
  min (base + system_factor + historical_factor + file_risk_factor +
        author_factor + time_factor) 1

/-- The rule-based probability of `_predict_outcome`, from the raw inputs:
commit risk score, system health score, number of similar incidents,
number of file-overlap incidents, the author incident rate, and whether
the deployment is off-hours. -/
def rule_prob (risk_score health_score : ℚ) (n_similar n_file : ℕ)
    (author_rate : ℚ) (is_off_hours : Bool) : ℚ :=
  fuse_factors (risk_score / 10) (1 - health_score) ((n_similar : ℚ) * (1/10))
    (min ((n_file : ℚ) * (3/10)) (3/5)) author_rate
    (if is_off_hours then 1/5 else 0)

/-- Probability fusion of `_predict_outcome`: when the learned-model
probability is present (`ml_prob ≥ 0`, sentinel `-1` otherwise) the final
probability is `0.7·ml + 0.3·rule`, else the rule-based value alone. -/
def final_prob (ml_prob rule_p : ℚ) : ℚ :=
  if 0 ≤ ml_prob then ml_prob * (7/10) + rule_p * (3/10) else rule_p

/-- Confidence reported by `_predict_outcome`: the memory-volume step
function, boosted by `0.2` (capped at `0.99`) when an ML score contributed. -/
def outcome_confidence (total_memories : ℕ) (ml_prob : ℚ) : ℚ :=
  if 0 ≤ ml_prob then min (calculate_confidence total_memories + 1/5) (99/100)
  else calculate_confidence total_memories

/-! ## Pattern learning (`record_incident` / `_learn_from_incident`) -/

/-- Reinforcing update of an existing `PatternMemory`
(the `if pattern_memory:` branch of `_learn_from_incident`). -/
def update_pattern (now : ℕ) (pm : PatternMemory) : PatternMemory :=
  { pm with
    occurrence_count := pm.occurrence_count + 1
    confidence := min (pm.confidence + 1/20) (99/100)
    last_seen := now }

/-- Freshly created `PatternMemory`
(the `else` branch of `_learn_from_incident`). -/
def new_pattern (now : ℕ) (tag severity : String) : PatternMemory :=
  { pattern_type := tag
    occurrence_count := 1
    confidence := 3/5
    typical_impact := severity
    first_seen := now
    last_seen := now }

/-- One iteration of the `for pattern in incident.patterns` loop of
`_learn_from_incident`: look the tag up in the pattern store (unique
`pattern_type` key) and update it, or append a new record. -/
def learn_tag (now : ℕ) (severity : String) (store : List PatternMemory)
    (tag : String) : List PatternMemory :=
  if store.any (fun pm => pm.pattern_type = tag) then
    store.map (fun pm => if pm.pattern_type = tag then update_pattern now pm else pm)
  else
    store ++ [new_pattern now tag severity]

/-- `_learn_from_incident`: returns the store unchanged when no related
deployment was found (`if not deployment: return`), otherwise runs the
pattern loop over the incident's tags. -/
def learn_from_incident (now : ℕ) (deployment_found : Bool) (severity : String)
    (patterns : List String) (store : List PatternMemory) : List PatternMemory :=
  if deployment_found then patterns.foldl (learn_tag now severity) store else store

/-- The deployment lookup of `record_incident`: most recent
`DeploymentEvent` with the given commit sha
(`order_by(deployed_at.desc()).limit(1)`). -/
def latest_deployment_for (deployments : List DeploymentEvent) (sha : String) :
    Option DeploymentEvent :=
  (deployments.filter (fun d => d.commit_sha = sha)).foldl
    (fun acc d =>
      match acc with
      | none => some d
      | some b => if b.deployed_at < d.deployed_at then some d else some b)
    none

/-- The commit dict assembled by `_analyze_commit` (the fields the
decision path reads). -/
structure CommitData where
  sha : String
  author : String
  risk_score : ℚ
  complexity_score : ℚ
  blast_radius : ℕ
  test_ratio : ℚ
  risky_patterns : List String
  files : List String
  deriving Repr, DecidableEq

/-- The recalled-memory dict assembled by `_recall_similar_situations`
(the fields the decision path reads): the number of similar incidents, the
involved-files list of each file-overlap incident, the author incident
rate, the temporal flags, and the total memory count. -/
structure MemoryContext where
  similar_incidents : ℕ
  file_incidents : List (List String)
  author_incident_rate : ℚ
  is_off_hours : Bool
  is_weekend : Bool
  total_memories : ℕ
  deriving Repr, DecidableEq

/-- The engine's durable state: the record stores. -/
structure EngineState where
  commits : List CommitData
  deployments : List DeploymentEvent
  incidents : List IncidentMemory
  patterns : List PatternMemory
  deriving Repr, DecidableEq

/-- `record_incident`: find the related deployment (if a root-cause commit
was given), store the incident, mark the deployment as having resulted in
an incident, and run `_learn_from_incident`. -/
def record_incident (now : ℕ) (st : EngineState) (incident_id severity description : String)
    (root_cause_commit : Option String) (patterns : List String) : EngineState :=
  let deployment := root_cause_commit.bind (latest_deployment_for st.deployments)
  let time_to_detect := deployment.map (fun d => (now - d.deployed_at) / 60)
  let incident : IncidentMemory :=
    ⟨incident_id, severity, description, root_cause_commit, now, time_to_detect, patterns⟩
  let deployments' :=
    match deployment with
    | none => st.deployments
    | some d =>
        st.deployments.map (fun x =>
          if x.deployment_id = d.deployment_id then
            { x with resulted_in_incident := true, incident_id := some incident_id }
          else x)
  { st with
    deployments := deployments'
    incidents := st.incidents ++ [incident]
    patterns := learn_from_incident now deployment.isSome severity patterns st.patterns }

/-! ## Deployment health monitoring
(`monitor_deployment_health` / `_mark_deployment_unhealthy`) -/

/-- `_mark_deployment_unhealthy`: appends the synthesized auto-incident to
the incident store.  The severity rule mirrors the source:
`"P2" if health_status == "DEGRADED" else "P1"`. -/
def mark_deployment_unhealthy (now : ℕ) (deployment : DeploymentEvent)
    (health_status : String) (new_error_patterns : List String)
    (duration_minutes : ℕ) (incidents : List IncidentMemory) : List IncidentMemory :=
  incidents ++
    [{ incident_id := "auto-" ++ deployment.deployment_id
       severity := if health_status = "DEGRADED" then "P2" else "P1"
       description := "Deployment " ++ deployment.deployment_id ++ " health degraded"
       root_cause_commit := some deployment.commit_sha
       occurred_at := now
       time_to_detect_minutes := some duration_minutes
       patterns := new_error_patterns }]

/-- Report assembled by `monitor_deployment_health` (the fields the
verification needs). -/
structure MonitorReport where
  health_status : String
  rollback : RollbackRecommendation
  error_rate_increase : ℚ
  degradation_percent : ℚ
  new_error_patterns : List String
  deriving Repr, DecidableEq

/-- `monitor_deployment_health` for a found deployment.  The log-analysis
outputs (current error rate, newly observed error-pattern tags, anomalies)
are taken as inputs; the function derives the error-rate increase and
degradation percent, assesses health, computes the rollback directive, and
— exactly when the status is CRITICAL or UNHEALTHY — stores the synthesized
auto-incident.  It returns the report together with the incident and
pattern stores after the call; the source contains no learning call, so the
pattern store passes through unchanged. -/
def monitor_deployment_health (now : ℕ) (deployment : DeploymentEvent)
    (current_error_rate : ℚ) (new_patterns : List String) (anomalies : List String)
    (duration_minutes : ℕ) (incidents : List IncidentMemory)
    (pattern_store : List PatternMemory) :
    MonitorReport × List IncidentMemory × List PatternMemory :=
  let baseline_error_rate := deployment.baseline_error_rate
  let error_rate_increase := current_error_rate - baseline_error_rate
  let degradation_percent := error_rate_increase / max baseline_error_rate (1/100) * 100
  let health_status :=
    assess_deployment_health error_rate_increase degradation_percent new_patterns anomalies
  let rollback := should_rollback health_status deployment duration_minutes
  let incidents' :=
    if health_status = "CRITICAL" ∨ health_status = "UNHEALTHY" then
      mark_deployment_unhealthy now deployment health_status new_patterns
        duration_minutes incidents
    else incidents
  (⟨health_status, rollback, error_rate_increase, degradation_percent, new_patterns⟩,
    incidents', pattern_store)

/-! ## Root-cause attribution (`_predict_root_cause`) -/

/-- A commit dict as produced by `_get_commits_before`. -/
structure CommitInfo where
  sha : String
  author : String
  risk_score : ℚ
  patterns : List String
  committed_at : ℕ
  deriving Repr, DecidableEq

/-- A similar-incident dict as produced by `_find_similar_incidents` /
`_find_similar_incident_patterns`.  `patterns = none` models a dict
without a `"patterns"` key. -/
structure SimilarIncident where
  root_cause_commit : Option String
  patterns : Option (List String)
  deriving Repr, DecidableEq

/-- `len(set(commitPatterns) & logPatternSet)`: number of distinct commit
pattern tags that also occur among the log patterns. -/
def pattern_overlap (commit_patterns log_patterns : List String) : ℕ :=
  (commit_patterns.dedup.filter (fun p => p ∈ log_patterns)).length

/-- Per-candidate score of `_predict_root_cause`: `0.4` per overlapping
pattern, `0.3` weighted commit risk, `0.3` for historical evidence. -/
def commit_score (log_patterns : List String) (similars : List SimilarIncident)
    (c : CommitInfo) : ℚ :=
  (pattern_overlap c.patterns log_patterns : ℚ) * (2/5) +
    c.risk_score / 10 * (3/10) +
    (if similars.any (fun s => s.root_cause_commit = some c.sha) then 3/10 else 0)

/-- Python's `max(..., key=score)` over a non-empty list: scan left to
right keeping the current best, replacing it only on a strictly greater
score — so ties keep the earliest element. -/
def select_best (score : CommitInfo → ℚ) (c : CommitInfo) (cs : List CommitInfo) :
    CommitInfo :=
  cs.foldl (fun b y => if score y > score b then y else b) c

/-- Result dict of `_predict_root_cause`. -/
structure RootCausePrediction where
  sha : String
  author : String
  risk_score : ℚ
  matched_patterns : List String
  confidence : ℚ
  committed_at : ℕ
  deriving Repr, DecidableEq

/-- `_predict_root_cause`: `none` on an empty candidate list, otherwise the
first maximal-score candidate with confidence `min(score, 0.95)`. -/
def predict_root_cause (recent_commits : List CommitInfo) (log_patterns : List String)
    (similars : List SimilarIncident) : Option RootCausePrediction :=
  match recent_commits with
  | [] => none
  | c :: cs =>
    let best := select_best (commit_score log_patterns similars) c cs
    some
      { sha := best.sha
        author := best.author
        risk_score := best.risk_score
        matched_patterns := best.patterns.dedup.filter (fun p => p ∈ log_patterns)
        confidence := min (commit_score log_patterns similars best) (19/20)
        committed_at := best.committed_at }

/-! ## Failure-mode prediction (`_predict_failure_mode`) -/

/-- `_predict_failure_mode`, with the possible `IndexError` of the
fallback `similar[0].get("patterns", ["Unknown"])[0]` made explicit as an
`Except.error`.  `Option.getD` models `dict.get` with its default. -/
def predict_failure_mode (risky_patterns : List String)
    (similar : List SimilarIncident) : Except String (Option String) :=
  if "auth_logic" ∈ risky_patterns then .ok (some "Authentication/Authorization failure")
  else if "db_migration" ∈ risky_patterns then .ok (some "Database schema issues")
  else if "api_contract" ∈ risky_patterns then .ok (some "API compatibility break")
  else if "dependency_version" ∈ risky_patterns then .ok (some "Dependency conflict")
  else
    match similar with
    | [] => .ok none
    | s :: _ =>
      match s.patterns.getD ["Unknown"] with
      | [] => .error "IndexError"
      | p :: _ => .ok (some p)

/-! ## The analysis pipeline (`analyze_deployment` / `_record_deployment`) -/

/-- `_generate_recommendations`: the fixed-order rule checks.  The Python
rendering of the involved-files set (an unordered `list(set(...))` inside
an f-string) is abstracted as a comma-separated bracket list. -/
def generate_recommendations (commit : CommitData) (mem : MemoryContext)
    (error_rate prob : ℚ) : List String :=
  (if prob ≥ 4/5 then ["BLOCK DEPLOYMENT - High incident probability"]
   else if prob ≥ 3/5 then ["Use staged/canary rollout"]
   else if prob ≥ 2/5 then ["Deploy with enhanced monitoring"]
   else []) ++
  (if "auth_logic" ∈ commit.risky_patterns then
    ["Enable verbose auth logging before deploy"] else []) ++
  (if "db_migration" ∈ commit.risky_patterns then
    ["Test migration on staging with production data volume"] else []) ++
  (if commit.test_ratio < 1/5 then ["Low test coverage - add integration tests"] else []) ++
  (if mem.is_off_hours then ["Off-hours deploy - ensure on-call coverage"] else []) ++
  (if mem.is_weekend then ["Weekend deploy - consider waiting for Monday"] else []) ++
  (if error_rate > 1/20 then ["System already has elevated errors - stabilize first"] else []) ++
  (if 0 < mem.similar_incidents then
    [toString mem.similar_incidents ++ " similar incidents in past 90 days - review history"]
   else []) ++
  (if mem.file_incidents ≠ [] then
    ["HIGH RISK: Files [" ++
        String.intercalate ", " (mem.file_incidents.foldl (fun acc fs => acc ++ fs) []).dedup ++
        "] have caused " ++ toString mem.file_incidents.length ++ " recent incidents"]
   else [])

/-- `_record_deployment`: persists the `CommitMemory` and the
`DeploymentEvent`.  The store write is fallible; `store_ok = false` models
the write/commit raising (StoreFailure).  The source wraps none of this in
a try/except. -/
def record_deployment (store_ok : Bool) (now : ℕ) (commit : CommitData)
    (repository : String) (prob : ℚ) (impact act : String) (error_rate : ℚ)
    (deployment_id : Option String) (st : EngineState) : Except String EngineState :=
  if store_ok then
    .ok { st with
      commits := st.commits ++ [commit]
      deployments := st.deployments ++
        [{ deployment_id := deployment_id.getD ("deploy-" ++ commit.sha.take 8)
           commit_sha := commit.sha
           repository := repository
           deployed_at := now
           predicted_risk := prob
           predicted_impact := impact
           recommended_action := act
           baseline_error_rate := error_rate
           resulted_in_incident := false
           incident_id := none }] }
  else .error "StoreFailure"

/-- The caller-visible decision part of `analyze_deployment`'s result. -/
structure AnalysisResult where
  incident_probability : ℚ
  confidence : ℚ
  expected_impact : String
  recommendations : List String
  action : String
  deriving Repr, DecidableEq

/-- `analyze_deployment`: score, recommend, decide, then persist via
`_record_deployment`; there is no exception handling around the write, so
a store failure propagates instead of the computed result.  The
time-to-incident and failure-mode enrichment of the prediction dict is
elided (it does not feed the returned decision fields verified here). -/
def analyze_deployment (store_ok : Bool) (now : ℕ) (commit : CommitData)
    (mem : MemoryContext) (health_score error_rate ml_prob : ℚ) (repository : String)
    (deployment_id : Option String) (st : EngineState) :
    Except String (AnalysisResult × EngineState) :=
  let rule_p := rule_prob commit.risk_score health_score mem.similar_incidents
    mem.file_incidents.length mem.author_incident_rate mem.is_off_hours
  let prob := final_prob ml_prob rule_p
  let conf := outcome_confidence mem.total_memories ml_prob
  let impact := estimate_impact commit.blast_radius
  let recs := generate_recommendations commit mem error_rate prob
  let act := decide_action prob
  match record_deployment store_ok now commit repository prob impact act error_rate
      deployment_id st with
  | .error e => .error e
  | .ok st' => .ok (⟨prob, conf, impact, recs, act⟩, st')

/-! ## Claim theorems -/

/-- C7: `_calculate_confidence` is a step function of the total memory
count only: `0.3` for counts below 10, `0.6` from 10 to 49, `0.8` from 50
to 199, and `0.95` from 200 on; in particular at counts
0, 9, 10, 49, 50, 199, 200, 500 it returns exactly
0.3, 0.3, 0.6, 0.6, 0.8, 0.8, 0.95, 0.95. -/
theorem calculate_confidence_step_function :
    (∀ n : ℕ,
      (calculate_confidence n = 3/10 ↔ n < 10) ∧
      (calculate_confidence n = 3/5 ↔ 10 ≤ n ∧ n < 50) ∧
      (calculate_confidence n = 4/5 ↔ 50 ≤ n ∧ n < 200) ∧
      (calculate_confidence n = 19/20 ↔ 200 ≤ n)) ∧
    calculate_confidence 0 = 3/10 ∧ calculate_confidence 9 = 3/10 ∧
    calculate_confidence 10 = 3/5 ∧ calculate_confidence 49 = 3/5 ∧
    calculate_confidence 50 = 4/5 ∧ calculate_confidence 199 = 4/5 ∧
    calculate_confidence 200 = 19/20 ∧ calculate_confidence 500 = 19/20 := by
  refine ⟨fun n => ?_, ?_, ?_, ?_, ?_, ?_, ?_, ?_, ?_⟩
  · unfold calculate_confidence
    split_ifs with h1 h2 h3 <;> refine ⟨?_, ?_, ?_, ?_⟩ <;>
      constructor <;> intro h <;> first | rfl | omega | norm_num at h
  all_goals norm_num [calculate_confidence]

/-- C2: `_assess_deployment_health` is a pure function of the error-rate
increase, degradation percent, new patterns and anomalies obeying the
four-tier cascade (CRITICAL, else UNHEALTHY, else DEGRADED, else HEALTHY),
and the five test vectors of spec section 8 evaluate to
CRITICAL, CRITICAL, UNHEALTHY, DEGRADED, HEALTHY. -/
theorem assess_deployment_health_spec :
    (∀ (eri dp : ℚ) (np an : List String),
      (assess_deployment_health eri dp np an = "CRITICAL" ↔
        eri > 1/5 ∨ np.length ≥ 3) ∧
      (assess_deployment_health eri dp np an = "UNHEALTHY" ↔
        ¬(eri > 1/5 ∨ np.length ≥ 3) ∧ (eri > 1/10 ∨ dp > 100)) ∧
      (assess_deployment_health eri dp np an = "DEGRADED" ↔
        ¬(eri > 1/5 ∨ np.length ≥ 3) ∧ ¬(eri > 1/10 ∨ dp > 100) ∧
          (eri > 1/20 ∨ np.length > 0 ∨ an.length > 0)) ∧
      (assess_deployment_health eri dp np an = "HEALTHY" ↔
        ¬(eri > 1/5 ∨ np.length ≥ 3) ∧ ¬(eri > 1/10 ∨ dp > 100) ∧
          ¬(eri > 1/20 ∨ np.length > 0 ∨ an.length > 0))) ∧
    assess_deployment_health (1/4) 0 ["auth_failure"] [] = "CRITICAL" ∧
    assess_deployment_health 0 0 ["a", "b", "c"] [] = "CRITICAL" ∧
    assess_deployment_health (3/25) 50 [] [] = "UNHEALTHY" ∧
    assess_deployment_health 0 0 [] ["x"] = "DEGRADED" ∧
    assess_deployment_health 0 0 [] [] = "HEALTHY" := by
  refine ⟨fun eri dp np an => ?_, ?_, ?_, ?_, ?_, ?_⟩
  · unfold assess_deployment_health
    split_ifs with h1 h2 h3 <;> refine ⟨?_, ?_, ?_, ?_⟩ <;> simp_all
  all_goals norm_num [assess_deployment_health]

/-- C3: the rollback policy of `_should_rollback`: CRITICAL gives
(true, IMMEDIATE); UNHEALTHY with predicted risk at least 0.7 gives
(true, HIGH), below 0.7 gives (true, MEDIUM); DEGRADED gives (false, LOW);
HEALTHY gives (false, NONE). -/
theorem should_rollback_policy (dep : DeploymentEvent) (d : ℕ) :
    (should_rollback "CRITICAL" dep d).recommended = true ∧
    (should_rollback "CRITICAL" dep d).urgency = "IMMEDIATE" ∧
    (dep.predicted_risk ≥ 7/10 →
      (should_rollback "UNHEALTHY" dep d).recommended = true ∧
      (should_rollback "UNHEALTHY" dep d).urgency = "HIGH") ∧
    (dep.predicted_risk < 7/10 →
      (should_rollback "UNHEALTHY" dep d).recommended = true ∧
      (should_rollback "UNHEALTHY" dep d).urgency = "MEDIUM") ∧
    (should_rollback "DEGRADED" dep d).recommended = false ∧
    (should_rollback "DEGRADED" dep d).urgency = "LOW" ∧
    (should_rollback "HEALTHY" dep d).recommended = false ∧
    (should_rollback "HEALTHY" dep d).urgency = "NONE" := by
  refine ⟨rfl, rfl, fun h => ?_, fun h => ?_, rfl, rfl, rfl, rfl⟩
  · simp only [should_rollback]
    rw [if_neg (by decide), if_pos h]
    exact ⟨rfl, rfl⟩
  · simp only [should_rollback]
    rw [if_neg (by decide), if_neg (not_le.mpr h)]
    exact ⟨rfl, rfl⟩

/-- Witness for C3: the policy evaluated at concrete deployments with
predicted risks 0.75 and 0.3 (the spec's table rows for UNHEALTHY). -/
theorem should_rollback_policy_witness :
    (should_rollback "UNHEALTHY"
      ⟨"d1", "sha1", "r", 0, 3/4, "HIGH", "BLOCK", 0, false, none⟩ 30).urgency = "HIGH" ∧
    (should_rollback "UNHEALTHY"
      ⟨"d2", "sha2", "r", 0, 3/10, "LOW", "PROCEED", 0, false, none⟩ 30).urgency = "MEDIUM" := by
  constructor
  · exact ((should_rollback_policy
      ⟨"d1", "sha1", "r", 0, 3/4, "HIGH", "BLOCK", 0, false, none⟩ 30).2.2.1
      (by norm_num)).2
  · exact ((should_rollback_policy
      ⟨"d2", "sha2", "r", 0, 3/10, "LOW", "PROCEED", 0, false, none⟩ 30).2.2.2.1
      (by norm_num)).2

/-- The fused probability is monotone in the rule-based probability,
whatever the ML contribution. -/
theorem final_prob_mono (ml : ℚ) {r r' : ℚ} (h : r ≤ r') :
    final_prob ml r ≤ final_prob ml r' := by
  unfold final_prob
  split_ifs with hml
  · linarith
  · exact h

/-- Under the input preconditions, the rule-based probability is
nonnegative. -/
theorem rule_prob_nonneg (risk health : ℚ) (ns nf : ℕ) (author_rate : ℚ)
    (off : Bool) (hr0 : 0 ≤ risk) (hh1 : health ≤ 1) (ha : 0 ≤ author_rate) :
    0 ≤ rule_prob risk health ns nf author_rate off := by
  unfold rule_prob fuse_factors
  have h1 : (0:ℚ) ≤ (ns : ℚ) * (1/10) := by positivity
  have h2 : (0:ℚ) ≤ min ((nf : ℚ) * (3/10)) (3/5) :=
    le_min (by positivity) (by norm_num)
  have h3 : (0:ℚ) ≤ (if off then (1:ℚ)/5 else 0) := by
    cases off <;> norm_num
  exact le_min (by linarith) (by norm_num)

/-- The rule-based probability never exceeds one. -/
theorem rule_prob_le_one (risk health : ℚ) (ns nf : ℕ) (author_rate : ℚ)
    (off : Bool) : rule_prob risk health ns nf author_rate off ≤ 1 :=
  min_le_right _ _

/-- C1: for the fused incident probability of `_predict_outcome`, under
the preconditions (risk score in [0,10], health score in [0,1], author
incident rate nonnegative, ML probability absent or itself a probability):
the result lies in [0,1], and increasing any single rule-based factor —
the system factor (by lowering the health score), the historical factor
(more similar incidents), the file-risk factor (more file-overlap
incidents), the author factor, or the time factor (off-hours) — while
holding everything else fixed never decreases the returned probability. -/
theorem predict_outcome_monotone_bounded
    (risk health author_rate ml : ℚ) (ns nf : ℕ) (off : Bool)
    (hr0 : 0 ≤ risk) (hr1 : risk ≤ 10) (hh0 : 0 ≤ health) (hh1 : health ≤ 1)
    (ha : 0 ≤ author_rate) (hml : ml < 0 ∨ (0 ≤ ml ∧ ml ≤ 1)) :
    (0 ≤ final_prob ml (rule_prob risk health ns nf author_rate off) ∧
      final_prob ml (rule_prob risk health ns nf author_rate off) ≤ 1) ∧
    (∀ health' : ℚ, health' ≤ health →
      final_prob ml (rule_prob risk health ns nf author_rate off) ≤
        final_prob ml (rule_prob risk health' ns nf author_rate off)) ∧
    (∀ ns' : ℕ, ns ≤ ns' →
      final_prob ml (rule_prob risk health ns nf author_rate off) ≤
        final_prob ml (rule_prob risk health ns' nf author_rate off)) ∧
    (∀ nf' : ℕ, nf ≤ nf' →
      final_prob ml (rule_prob risk health ns nf author_rate off) ≤
        final_prob ml (rule_prob risk health ns nf' author_rate off)) ∧
    (∀ ar' : ℚ, author_rate ≤ ar' →
      final_prob ml (rule_prob risk health ns nf author_rate off) ≤
        final_prob ml (rule_prob risk health ns nf ar' off)) ∧
    (final_prob ml (rule_prob risk health ns nf author_rate false) ≤
      final_prob ml (rule_prob risk health ns nf author_rate true)) := by
  have hb0 := rule_prob_nonneg risk health ns nf author_rate off hr0 hh1 ha
  have hb1 := rule_prob_le_one risk health ns nf author_rate off
  refine ⟨⟨?_, ?_⟩, ?_, ?_, ?_, ?_, ?_⟩
  · unfold final_prob
    split_ifs with h
    · rcases hml with h' | h'
      · linarith
      · linarith [h'.1, h'.2]
    · exact hb0
  · unfold final_prob
    split_ifs with h
    · rcases hml with h' | h'
      · linarith
      · linarith [h'.1, h'.2]
    · exact hb1
  · intro health' hle
    refine final_prob_mono ml ?_
    unfold rule_prob fuse_factors
    exact min_le_min (by linarith) le_rfl
  · intro ns' hle
    refine final_prob_mono ml ?_
    unfold rule_prob fuse_factors
    have : ((ns : ℚ)) ≤ (ns' : ℚ) := by exact_mod_cast hle
    exact min_le_min (by linarith) le_rfl
  · intro nf' hle
    refine final_prob_mono ml ?_
    unfold rule_prob fuse_factors
    have hc : ((nf : ℚ)) ≤ (nf' : ℚ) := by exact_mod_cast hle
    have : min ((nf : ℚ) * (3/10)) (3/5) ≤ min ((nf' : ℚ) * (3/10)) (3/5) :=
      min_le_min (by linarith) le_rfl
    exact min_le_min (by linarith) le_rfl
  · intro ar' hle
    refine final_prob_mono ml ?_
    unfold rule_prob fuse_factors
    exact min_le_min (by linarith) le_rfl
  · refine final_prob_mono ml ?_
    unfold rule_prob fuse_factors
    exact min_le_min (by norm_num) le_rfl

/-- Witness for C1: the end-to-end scenario inputs of spec section 8
(risk 9, healthy system, two similar incidents, one file-overlap incident,
off-hours, no ML model) satisfy the preconditions, and the fused
probability is a probability. -/
theorem predict_outcome_monotone_bounded_witness :
    0 ≤ final_prob (-1) (rule_prob 9 1 2 1 0 true) ∧
      final_prob (-1) (rule_prob 9 1 2 1 0 true) ≤ 1 :=
  (predict_outcome_monotone_bounded 9 1 0 (-1) 2 1 true (by norm_num) (by norm_num)
    (by norm_num) (by norm_num) (by norm_num) (Or.inl (by norm_num))).1

/-- Every record in the store after one `learn_tag` step is an untouched
old record, the reinforcing update of an old record, or the freshly
created record. -/
theorem mem_learn_tag {now : ℕ} {sev : String} {store : List PatternMemory}
    {tag : String} {pm' : PatternMemory} (h : pm' ∈ learn_tag now sev store tag) :
    (∃ pm ∈ store, pm' = pm ∨ pm' = update_pattern now pm) ∨
      pm' = new_pattern now tag sev := by
  unfold learn_tag at h
  split_ifs at h with hc
  · rcases List.mem_map.mp h with ⟨pm, hmem, heq⟩
    refine Or.inl ⟨pm, hmem, ?_⟩
    split_ifs at heq
    · exact Or.inr heq.symm
    · exact Or.inl heq.symm
  · rcases List.mem_append.mp h with h1 | h1
    · exact Or.inl ⟨pm', h1, Or.inl rfl⟩
    · exact Or.inr (by simpa using h1)

/-- The confidence-range invariant `0 ≤ confidence ≤ 0.99` is preserved by
the whole pattern loop of `_learn_from_incident`. -/
theorem conf_inv_foldl (now : ℕ) (sev : String) (tags : List String) :
    ∀ store : List PatternMemory,
      (∀ pm ∈ store, 0 ≤ pm.confidence ∧ pm.confidence ≤ 99/100) →
      ∀ pm ∈ tags.foldl (learn_tag now sev) store,
        0 ≤ pm.confidence ∧ pm.confidence ≤ 99/100 := by
  induction tags with
  | nil => intro store hs pm hm; exact hs pm hm
  | cons t ts ih =>
    intro store hs pm hm
    refine ih (learn_tag now sev store t) ?_ pm hm
    intro q hq
    rcases mem_learn_tag hq with ⟨r, hr, hq' | hq'⟩ | hq'
    · exact hq' ▸ hs r hr
    · have := hs r hr
      subst hq'
      unfold update_pattern
      constructor
      · exact le_min (by linarith [this.1]) (by norm_num)
      · exact min_le_right _ _
    · subst hq'
      unfold new_pattern
      norm_num

/-- C5: pattern confidence is an invariant of the learning step: every
record in the store after `_learn_from_incident` keeps its confidence in
[0, 0.99]; a reinforcing update never decreases a confidence that obeys
the invariant; the update adds exactly 0.05 whenever that stays within the
0.99 cap, and caps at 0.99 otherwise; and reinforcing the same pattern 10
times from its creation value 0.6 yields exactly 0.99. -/
theorem pattern_confidence_invariant
    (now : ℕ) (deployment_found : Bool) (sev : String) (tags : List String)
    (store : List PatternMemory) (pm : PatternMemory)
    (hstore : ∀ q ∈ store, 0 ≤ q.confidence ∧ q.confidence ≤ 99/100) :
    (∀ q ∈ learn_from_incident now deployment_found sev tags store,
        0 ≤ q.confidence ∧ q.confidence ≤ 99/100) ∧
    (pm.confidence ≤ 99/100 →
        pm.confidence ≤ (update_pattern now pm).confidence) ∧
    (pm.confidence + 1/20 ≤ 99/100 →
        (update_pattern now pm).confidence = pm.confidence + 1/20) ∧
    (update_pattern now pm).confidence ≤ 99/100 ∧
    (new_pattern now "p" sev).confidence = 3/5 ∧
    ((update_pattern now)^[10] (new_pattern now "p" sev)).confidence = 99/100 := by
  refine ⟨?_, ?_, ?_, min_le_right _ _, rfl, ?_⟩
  · unfold learn_from_incident
    split_ifs with hd
    · exact conf_inv_foldl now sev tags store hstore
    · exact hstore
  · intro hc
    unfold update_pattern
    exact le_min (by linarith) hc
  · intro hc
    unfold update_pattern
    exact min_eq_left hc
  · norm_num [Function.iterate_succ_apply, update_pattern, new_pattern, min_def]

/-- Witness for C5: a concrete empty store and a concrete record at the
creation confidence 0.6 satisfy the invariant hypotheses. -/
theorem pattern_confidence_invariant_witness :
    (⟨"auth_logic", 1, 3/5, "P1", 0, 0⟩ : PatternMemory).confidence ≤
      (update_pattern 7 ⟨"auth_logic", 1, 3/5, "P1", 0, 0⟩).confidence :=
  (pattern_confidence_invariant 7 true "P1" ["auth_logic"] []
    ⟨"auth_logic", 1, 3/5, "P1", 0, 0⟩ (by intro q hq; cases hq)).2.1 (by norm_num)

/-- A record whose tag differs from the learned tag passes through a
`learn_tag` step untouched. -/
theorem mem_learn_tag_of_ne {now : ℕ} {sev : String} {store : List PatternMemory}
    {tag : String} {pm : PatternMemory} (hm : pm ∈ store)
    (hne : pm.pattern_type ≠ tag) : pm ∈ learn_tag now sev store tag := by
  unfold learn_tag
  split_ifs with hc
  · exact List.mem_map.mpr ⟨pm, hm, by rw [if_neg hne]⟩
  · exact List.mem_append_left _ hm

/-- A record whose tag occurs nowhere in the remaining tag list passes
through the whole pattern loop untouched. -/
theorem mem_foldl_learn_of_not_mem (now : ℕ) (sev : String) (tags : List String) :
    ∀ (store : List PatternMemory) (pm : PatternMemory), pm ∈ store →
      pm.pattern_type ∉ tags → pm ∈ tags.foldl (learn_tag now sev) store := by
  induction tags with
  | nil => intro store pm hm _; exact hm
  | cons t ts ih =>
    intro store pm hm hn
    refine ih _ pm (mem_learn_tag_of_ne hm fun he => hn ?_) fun h => hn ?_
    · rw [he]; exact List.mem_cons_self t ts
    · exact List.mem_cons_of_mem _ h

/-- If no record carries a tag and the loop never learns that tag, no
record carries it afterwards either. -/
theorem not_mem_type_foldl_learn (now : ℕ) (sev tag : String) (tags : List String) :
    ∀ store : List PatternMemory, (∀ pm ∈ store, pm.pattern_type ≠ tag) →
      tag ∉ tags →
      ∀ pm ∈ tags.foldl (learn_tag now sev) store, pm.pattern_type ≠ tag := by
  induction tags with
  | nil => intro store hs _ pm hm; exact hs pm hm
  | cons t ts ih =>
    intro store hs hn pm hm
    refine ih _ ?_ (fun h => hn (List.mem_cons_of_mem _ h)) pm hm
    intro q hq
    rcases mem_learn_tag hq with ⟨r, hr, hq' | hq'⟩ | hq'
    · exact hq' ▸ hs r hr
    · subst hq'; exact hs r hr
    · subst hq'
      intro he
      refine hn ?_
      rw [show t = tag from he]
      exact List.mem_cons_self tag ts

/-- When some record carries the learned tag, its reinforcing update is in
the store after the `learn_tag` step. -/
theorem update_mem_learn_tag {now : ℕ} {sev : String} {store : List PatternMemory}
    {tag : String} {pm : PatternMemory} (hm : pm ∈ store)
    (ht : pm.pattern_type = tag) :
    update_pattern now pm ∈ learn_tag now sev store tag := by
  unfold learn_tag
  rw [if_pos (List.any_eq_true.mpr ⟨pm, hm, decide_eq_true ht⟩)]
  exact List.mem_map.mpr ⟨pm, hm, by rw [if_pos ht]⟩

/-- When no record carries the learned tag, the `learn_tag` step appends
the freshly created record. -/
theorem learn_tag_creates {now : ℕ} {sev : String} {store : List PatternMemory}
    {tag : String} (h : ∀ pm ∈ store, pm.pattern_type ≠ tag) :
    learn_tag now sev store tag = store ++ [new_pattern now tag sev] := by
  unfold learn_tag
  rw [if_neg]
  simp only [List.any_eq_true, decide_eq_true_eq, not_exists]
  intro pm
  intro hc
  rcases hc with ⟨hm, ht⟩
  exact h pm hm ht

/-- C4 (amended): for every call to `record_incident` whose root-cause
commit matches a recorded deployment (the lookup succeeds — otherwise
`_learn_from_incident` returns without touching the pattern store), for
every tag of the incident's (duplicate-free) pattern list: if a
`PatternMemory` with that pattern type exists its occurrence count is
incremented, its confidence raised by 0.05 capped at 0.99, and its
last-seen stamp updated; otherwise a new record is created with confidence
0.6 and the incident's severity as typical impact. -/
theorem record_incident_learns_patterns
    (now : ℕ) (st : EngineState) (iid sev desc sha : String) (tags : List String)
    (hdep : (latest_deployment_for st.deployments sha).isSome = true)
    (htags : tags.Nodup) (tag : String) (htag : tag ∈ tags) :
    (∀ pm ∈ st.patterns, pm.pattern_type = tag →
      ∃ pm' ∈ (record_incident now st iid sev desc (some sha) tags).patterns,
        pm'.pattern_type = tag ∧
        pm'.occurrence_count = pm.occurrence_count + 1 ∧
        pm'.confidence = min (pm.confidence + 1/20) (99/100) ∧
        pm'.last_seen = now) ∧
    ((∀ pm ∈ st.patterns, pm.pattern_type ≠ tag) →
      ∃ pm' ∈ (record_incident now st iid sev desc (some sha) tags).patterns,
        pm'.pattern_type = tag ∧ pm'.occurrence_count = 1 ∧
        pm'.confidence = 3/5 ∧ pm'.typical_impact = sev ∧
        pm'.first_seen = now ∧ pm'.last_seen = now) := by
  have hres : (record_incident now st iid sev desc (some sha) tags).patterns =
      tags.foldl (learn_tag now sev) st.patterns := by
    simp [record_incident, learn_from_incident, hdep]
  obtain ⟨l1, l2, rfl⟩ := List.append_of_mem htag
  have hsplit : ∀ store : List PatternMemory,
      (l1 ++ tag :: l2).foldl (learn_tag now sev) store =
        l2.foldl (learn_tag now sev)
          (learn_tag now sev (l1.foldl (learn_tag now sev) store) tag) := by
    intro store
    rw [List.foldl_append]
    rfl
  have htag_l1 : tag ∉ l1 := by
    intro hmem
    exact (List.disjoint_of_nodup_append htags) hmem (List.mem_cons_self tag l2)
  have htag_l2 : tag ∉ l2 := by
    have := (List.Nodup.of_append_right htags)
    exact (List.nodup_cons.mp this).1
  constructor
  · intro pm hm ht
    refine ⟨update_pattern now pm, ?_, ht, rfl, rfl, rfl⟩
    rw [hres, hsplit]
    refine mem_foldl_learn_of_not_mem now sev l2 _ _ ?_ ?_
    · refine update_mem_learn_tag ?_ ht
      exact mem_foldl_learn_of_not_mem now sev l1 _ _ hm (by rw [ht]; exact htag_l1)
    · show (update_pattern now pm).pattern_type ∉ l2
      rw [show (update_pattern now pm).pattern_type = pm.pattern_type from rfl, ht]
      exact htag_l2
  · intro hnone
    refine ⟨new_pattern now tag sev, ?_, rfl, rfl, rfl, rfl, rfl, rfl⟩
    rw [hres, hsplit]
    have h1 : ∀ pm ∈ l1.foldl (learn_tag now sev) st.patterns,
        pm.pattern_type ≠ tag :=
      not_mem_type_foldl_learn now sev tag l1 st.patterns hnone htag_l1
    rw [learn_tag_creates h1]
    refine mem_foldl_learn_of_not_mem now sev l2 _ _ ?_ ?_
    · exact List.mem_append_right _ (List.mem_singleton.mpr rfl)
    · show (new_pattern now tag sev).pattern_type ∉ l2
      exact htag_l2

/-- Counterexample for C4 as stated: a `record_incident` call with no
root-cause commit (so no related deployment is found) and pattern list
`["auth_logic"]` on an empty store creates no `PatternMemory` at all — the
claim demands one with confidence 0.6. -/
theorem record_incident_unconditional_learning_false :
    ¬ ∃ pm ∈ (record_incident 0 ⟨[], [], [], []⟩ "INC-1" "P1" "outage" none
        ["auth_logic"]).patterns, pm.pattern_type = "auth_logic" := by
  simp [record_incident, learn_from_incident, latest_deployment_for]

/-- Witness for C4: a concrete call whose root-cause commit "abc" matches
a stored deployment creates the `auth_logic` pattern record with
confidence 0.6 and the incident's severity. -/
theorem record_incident_learns_patterns_witness :
    ∃ pm' ∈ (record_incident 5
        ⟨[], [⟨"d1", "abc", "r", 0, 1/2, "LOW", "PROCEED", 0, false, none⟩], [], []⟩
        "INC-1" "P1" "outage" (some "abc") ["auth_logic"]).patterns,
      pm'.pattern_type = "auth_logic" ∧ pm'.occurrence_count = 1 ∧
      pm'.confidence = 3/5 ∧ pm'.typical_impact = "P1" ∧
      pm'.first_seen = 5 ∧ pm'.last_seen = 5 :=
  (record_incident_learns_patterns 5
    ⟨[], [⟨"d1", "abc", "r", 0, 1/2, "LOW", "PROCEED", 0, false, none⟩], [], []⟩
    "INC-1" "P1" "outage" "abc" ["auth_logic"] rfl (by simp) "auth_logic"
    (by simp)).2 (by intro pm hm; cases hm)

/-- Specification of the left-to-right maximum scan: the selected element
splits the list so that every element is bounded by it and everything
strictly before it scores strictly less (Python `max` keeps the first
maximal element). -/
theorem select_best_spec (f : CommitInfo → ℚ) :
    ∀ (cs : List CommitInfo) (c : CommitInfo),
      ∃ pre post, c :: cs = pre ++ select_best f c cs :: post ∧
        (∀ x ∈ c :: cs, f x ≤ f (select_best f c cs)) ∧
        (∀ x ∈ pre, f x < f (select_best f c cs)) := by
  intro cs
  induction cs with
  | nil =>
    intro c
    exact ⟨[], [], rfl, by simp [select_best], by simp⟩
  | cons y ys ih =>
    intro c
    have hstep : select_best f c (y :: ys) =
        select_best f (if f y > f c then y else c) ys := rfl
    by_cases hyc : f y > f c
    · rw [hstep, if_pos hyc]
      obtain ⟨pre, post, hd, hmax, hlt⟩ := ih y
      refine ⟨c :: pre, post, ?_, ?_, ?_⟩
      · rw [List.cons_append, ← hd]
      · intro x hx
        rcases List.mem_cons.mp hx with rfl | hx'
        · exact le_of_lt (lt_of_lt_of_le hyc (hmax y (List.mem_cons_self y ys)))
        · exact hmax x hx'
      · intro x hx
        rcases List.mem_cons.mp hx with rfl | hx'
        · exact lt_of_lt_of_le hyc (hmax y (List.mem_cons_self y ys))
        · exact hlt x hx'
    · rw [hstep, if_neg hyc]
      obtain ⟨pre, post, hd, hmax, hlt⟩ := ih c
      cases pre with
      | nil =>
        simp only [List.nil_append] at hd
        injection hd with hc hpost
        refine ⟨[], y :: post, ?_, ?_, by simp⟩
        · rw [List.nil_append, ← hc, ← hpost]
        · intro x hx
          rcases List.mem_cons.mp hx with rfl | hx'
          · exact hmax x (List.mem_cons_self x ys)
          · rcases List.mem_cons.mp hx' with rfl | hx''
            · exact le_trans (not_lt.mp hyc) (hmax c (List.mem_cons_self c ys))
            · exact hmax x (List.mem_cons_of_mem c hx'')
      | cons p ps =>
        rw [List.cons_append] at hd
        have hpc : c = p := (List.cons.injEq _ _ _ _ ▸ hd).1
        have hys : ys = ps ++ select_best f c ys :: post :=
          (List.cons.injEq _ _ _ _ ▸ hd).2
        have hcb : f c < f (select_best f c ys) :=
          hlt p (hpc ▸ List.mem_cons_self p ps) |> (hpc ▸ ·)
        refine ⟨c :: y :: ps, post, ?_, ?_, ?_⟩
        · rw [List.cons_append, List.cons_append, ← hys]
        · intro x hx
          rcases List.mem_cons.mp hx with rfl | hx'
          · exact hmax x (List.mem_cons_self x ys)
          · rcases List.mem_cons.mp hx' with rfl | hx''
            · exact le_trans (not_lt.mp hyc) (le_of_lt hcb)
            · exact hmax x (List.mem_cons_of_mem c hx'')
        · intro x hx
          rcases List.mem_cons.mp hx with rfl | hx'
          · exact hcb
          · rcases List.mem_cons.mp hx' with rfl | hx''
            · exact lt_of_le_of_lt (not_lt.mp hyc) hcb
            · exact hlt x (hpc ▸ List.mem_cons_of_mem p hx'')

/-- C6: on a non-empty candidate list, `_predict_root_cause` returns the
commit maximizing the score
`0.4·|commitPatterns ∩ logPatterns| + 0.3·(risk/10) + 0.3·historical`,
with confidence `min(score, 0.95)`; among equal maximal scores the
earliest commit of the most-recent-first list is returned (every commit
strictly before the winner scores strictly less). -/
theorem predict_root_cause_argmax (recent : List CommitInfo)
    (log_patterns : List String) (similars : List SimilarIncident)
    (h : recent ≠ []) :
    ∃ pre best post, recent = pre ++ best :: post ∧
      predict_root_cause recent log_patterns similars = some
        { sha := best.sha, author := best.author, risk_score := best.risk_score,
          matched_patterns := best.patterns.dedup.filter (fun p => p ∈ log_patterns),
          confidence := min (commit_score log_patterns similars best) (19/20),
          committed_at := best.committed_at } ∧
      (∀ c ∈ recent, commit_score log_patterns similars c ≤
        commit_score log_patterns similars best) ∧
      (∀ c ∈ pre, commit_score log_patterns similars c <
        commit_score log_patterns similars best) := by
  match recent, h with
  | c :: cs, _ =>
    obtain ⟨pre, post, hd, hmax, hlt⟩ :=
      select_best_spec (commit_score log_patterns similars) cs c
    exact ⟨pre, select_best (commit_score log_patterns similars) c cs, post,
      hd, rfl, hmax, hlt⟩

/-- Witness for C6: two candidate commits with identical scores (risk 5,
no patterns, no historical evidence). -/
theorem predict_root_cause_argmax_witness :
    ∃ pre best post,
      [(⟨"sha-a", "alice", 5, [], 10⟩ : CommitInfo), ⟨"sha-b", "bob", 5, [], 9⟩] =
        pre ++ best :: post ∧
      predict_root_cause [⟨"sha-a", "alice", 5, [], 10⟩, ⟨"sha-b", "bob", 5, [], 9⟩]
          [] [] = some
        { sha := best.sha, author := best.author, risk_score := best.risk_score,
          matched_patterns := best.patterns.dedup.filter (fun p => p ∈ ([] : List String)),
          confidence := min (commit_score [] [] best) (19/20),
          committed_at := best.committed_at } ∧
      (∀ c ∈ [(⟨"sha-a", "alice", 5, [], 10⟩ : CommitInfo), ⟨"sha-b", "bob", 5, [], 9⟩],
        commit_score [] [] c ≤ commit_score [] [] best) ∧
      (∀ c ∈ pre, commit_score [] [] c < commit_score [] [] best) :=
  predict_root_cause_argmax
    [⟨"sha-a", "alice", 5, [], 10⟩, ⟨"sha-b", "bob", 5, [], 9⟩] [] [] (by simp)

/-- C9 (amended): exactly when `monitor_deployment_health` computes a
CRITICAL or UNHEALTHY status it appends the synthesized auto-incident,
whose severity is always P1 on these paths (the P2 branch of
`_mark_deployment_unhealthy` would require a DEGRADED status, which never
reaches it); the pattern store is returned unchanged — the monitor makes
no learning call, so pattern confidences are not updated from the
record's tags. -/
theorem monitor_health_auto_incident (now : ℕ) (dep : DeploymentEvent)
    (current_error_rate : ℚ) (new_patterns anomalies : List String)
    (duration : ℕ) (incs : List IncidentMemory) (ps : List PatternMemory)
    (report : MonitorReport) (incs' : List IncidentMemory) (ps' : List PatternMemory)
    (h : monitor_deployment_health now dep current_error_rate new_patterns anomalies
      duration incs ps = (report, incs', ps')) :
    (report.health_status = "CRITICAL" ∨ report.health_status = "UNHEALTHY" →
      incs' = incs ++
        [{ incident_id := "auto-" ++ dep.deployment_id
           severity := "P1"
           description := "Deployment " ++ dep.deployment_id ++ " health degraded"
           root_cause_commit := some dep.commit_sha
           occurred_at := now
           time_to_detect_minutes := some duration
           patterns := new_patterns }]) ∧
    (¬(report.health_status = "CRITICAL" ∨ report.health_status = "UNHEALTHY") →
      incs' = incs) ∧
    ps' = ps := by
  simp only [monitor_deployment_health] at h
  injection h with h1 h23
  injection h23 with h2 h3
  subst h1 h2 h3
  refine ⟨?_, ?_, rfl⟩
  · intro hcase
    dsimp only at hcase
    rw [if_pos hcase]
    rcases hcase with hc | hc <;> rw [mark_deployment_unhealthy, hc] <;> simp
  · intro hcase
    dsimp only at hcase
    rw [if_neg hcase]

/-- Witness for C9: a deployment with baseline error rate 0 observed at
current error rate 0.25 is CRITICAL; the auto-incident with severity P1
and the `auth_failure` tag is appended to the (empty) incident store. -/
theorem monitor_health_auto_incident_witness :
    (monitor_deployment_health 9 ⟨"d1", "sha1", "r", 0, 1/2, "LOW", "PROCEED", 0, false, none⟩
        (1/4) ["auth_failure"] [] 30 [] []).2.1 =
      [] ++ [⟨"auto-d1", "P1", "Deployment d1 health degraded", some "sha1", 9,
        some 30, ["auth_failure"]⟩] :=
  (monitor_health_auto_incident 9
    ⟨"d1", "sha1", "r", 0, 1/2, "LOW", "PROCEED", 0, false, none⟩ (1/4)
    ["auth_failure"] [] 30 [] [] _ _ _ rfl).1
    (Or.inl (by norm_num [monitor_deployment_health, assess_deployment_health]))

/-- Counterexample for C9 as stated: a CRITICAL monitoring outcome whose
auto-incident carries the tag `auth_failure`, yet the pattern store after
the call is still empty — no pattern confidence was created or updated
from the record's tags. -/
theorem monitor_health_no_pattern_learning :
    (monitor_deployment_health 9 ⟨"d1", "sha1", "r", 0, 1/2, "LOW", "PROCEED", 0, false, none⟩
        (1/4) ["auth_failure"] [] 30 [] []).1.health_status = "CRITICAL" ∧
    (monitor_deployment_health 9 ⟨"d1", "sha1", "r", 0, 1/2, "LOW", "PROCEED", 0, false, none⟩
        (1/4) ["auth_failure"] [] 30 [] []).2.2 = ([] : List PatternMemory) := by
  constructor
  · norm_num [monitor_deployment_health, assess_deployment_health]
  · rfl

/-- C8: `analyze_deployment` computes the prediction, recommendations and
action purely from its inputs before the store write — but the source has
no exception handling around `_record_deployment`, so when the write
raises, the error propagates and the already-computed decision is NOT
returned to the caller (contradicting spec section 7). -/
theorem analyze_deployment_store_failure (now : ℕ) (commit : CommitData)
    (mem : MemoryContext) (health_score error_rate ml_prob : ℚ)
    (repository : String) (deployment_id : Option String) (st : EngineState) :
    analyze_deployment false now commit mem health_score error_rate ml_prob
        repository deployment_id st = Except.error "StoreFailure" ∧
    (∃ st', analyze_deployment true now commit mem health_score error_rate ml_prob
        repository deployment_id st = Except.ok
      ({ incident_probability := final_prob ml_prob (rule_prob commit.risk_score
            health_score mem.similar_incidents mem.file_incidents.length
            mem.author_incident_rate mem.is_off_hours)
         confidence := outcome_confidence mem.total_memories ml_prob
         expected_impact := estimate_impact commit.blast_radius
         recommendations := generate_recommendations commit mem error_rate
           (final_prob ml_prob (rule_prob commit.risk_score health_score
             mem.similar_incidents mem.file_incidents.length
             mem.author_incident_rate mem.is_off_hours))
         action := decide_action (final_prob ml_prob (rule_prob commit.risk_score
           health_score mem.similar_incidents mem.file_incidents.length
           mem.author_incident_rate mem.is_off_hours)) }, st')) :=
  ⟨rfl, ⟨_, rfl⟩⟩

/-- C10: `_predict_failure_mode` is total only under an unstated
precondition.  At a commit with none of the four precedence tags and a
most-recent similar incident whose `patterns` list is present but empty,
the fallback indexing raises `IndexError`; under the precondition that
every similar incident carries at least one pattern tag the function is
total and follows the fixed precedence order (auth_logic, db_migration,
api_contract, dependency_version, fallback to the most recent similar
incident's first pattern, none). -/
theorem predict_failure_mode_partiality (pats : List String)
    (similar : List SimilarIncident)
    (hpre : ∀ s ∈ similar, ∀ l, s.patterns = some l → l ≠ []) :
    predict_failure_mode [] [⟨none, some []⟩] = .error "IndexError" ∧
    (∃ r, predict_failure_mode pats similar = .ok r) ∧
    ("auth_logic" ∈ pats →
      predict_failure_mode pats similar = .ok (some "Authentication/Authorization failure")) ∧
    ("auth_logic" ∉ pats → "db_migration" ∈ pats →
      predict_failure_mode pats similar = .ok (some "Database schema issues")) ∧
    ("auth_logic" ∉ pats → "db_migration" ∉ pats → "api_contract" ∈ pats →
      predict_failure_mode pats similar = .ok (some "API compatibility break")) ∧
    ("auth_logic" ∉ pats → "db_migration" ∉ pats → "api_contract" ∉ pats →
      "dependency_version" ∈ pats →
      predict_failure_mode pats similar = .ok (some "Dependency conflict")) ∧
    ("auth_logic" ∉ pats → "db_migration" ∉ pats → "api_contract" ∉ pats →
      "dependency_version" ∉ pats → similar = [] →
      predict_failure_mode pats similar = .ok none) ∧
    ("auth_logic" ∉ pats → "db_migration" ∉ pats → "api_contract" ∉ pats →
      "dependency_version" ∉ pats → ∀ s tl, similar = s :: tl →
      ∃ p rest, s.patterns.getD ["Unknown"] = p :: rest ∧
        predict_failure_mode pats similar = .ok (some p)) := by
  have hfall : ∀ (h1 : "auth_logic" ∉ pats) (h2 : "db_migration" ∉ pats)
      (h3 : "api_contract" ∉ pats) (h4 : "dependency_version" ∉ pats)
      (s : SimilarIncident) (tl : List SimilarIncident), similar = s :: tl →
      ∃ p rest, s.patterns.getD ["Unknown"] = p :: rest ∧
        predict_failure_mode pats similar = .ok (some p) := by
    intro h1 h2 h3 h4 s tl hsim
    subst hsim
    cases hp : s.patterns with
    | none =>
      refine ⟨"Unknown", [], rfl, ?_⟩
      simp [predict_failure_mode, h1, h2, h3, h4, hp]
    | some l =>
      cases l with
      | nil => exact absurd rfl (hpre s (List.mem_cons_self s tl) [] hp)
      | cons p rest =>
        refine ⟨p, rest, rfl, ?_⟩
        simp [predict_failure_mode, h1, h2, h3, h4, hp]
  refine ⟨rfl, ?_, ?_, ?_, ?_, ?_, ?_, hfall⟩
  · by_cases h1 : "auth_logic" ∈ pats
    · exact ⟨some "Authentication/Authorization failure", by simp [predict_failure_mode, h1]⟩
    by_cases h2 : "db_migration" ∈ pats
    · exact ⟨some "Database schema issues", by simp [predict_failure_mode, h1, h2]⟩
    by_cases h3 : "api_contract" ∈ pats
    · exact ⟨some "API compatibility break", by simp [predict_failure_mode, h1, h2, h3]⟩
    by_cases h4 : "dependency_version" ∈ pats
    · exact ⟨some "Dependency conflict", by simp [predict_failure_mode, h1, h2, h3, h4]⟩
    cases similar with
    | nil => exact ⟨none, by simp [predict_failure_mode, h1, h2, h3, h4]⟩
    | cons s tl =>
      obtain ⟨p, rest, _, hok⟩ := hfall h1 h2 h3 h4 s tl rfl
      exact ⟨some p, hok⟩
  · intro h1; simp [predict_failure_mode, h1]
  · intro h1 h2; simp [predict_failure_mode, h1, h2]
  · intro h1 h2 h3; simp [predict_failure_mode, h1, h2, h3]
  · intro h1 h2 h3 h4; simp [predict_failure_mode, h1, h2, h3, h4]
  · intro h1 h2 h3 h4 hsim; subst hsim; simp [predict_failure_mode, h1, h2, h3, h4]

/-- Witness for C10: a similar incident carrying one pattern tag satisfies
the precondition, and the fallback returns without error. -/
theorem predict_failure_mode_partiality_witness :
    ∃ r, predict_failure_mode [] [⟨none, some ["database_error"]⟩] = .ok r :=
  (predict_failure_mode_partiality [] [⟨none, some ["database_error"]⟩]
    (by rintro s hs l hl he; subst he; simp at hs; subst hs; simp at hl)).2.1

end RootOps
